import Mathlib

/-!
Verification of the Conversation Session Controller of the Copilot-Chat
repository (src/copilot-script-fixed.js) against its specification.

The embedding models the controller's state and operations directly from the
JavaScript source:

* `AppState` mirrors the global `appState` object (`selectedService`,
  `userEmail`, `conversationHistory`, `isLoading`, `initialized`), extended
  with a `messages` field that models the contents of the rendered message
  container (`elements.messagesContainer`), which the source mutates through
  `addMessage` and clears in `selectService` and `resetToWelcome`.
* `SERVICES` and `API_CONFIG` mirror the two static configuration objects.
* `validateEmail` mirrors the regex test
  `/^[^\s@]+@[^\s@]+\.[^\s@]+$/.test(email.trim())`.
* `selectService`, `sendMessage`, `callAPI`, `addMessage`, `resetToWelcome`
  mirror the functions of the same names.  The HTTP transport is a parameter
  (`FetchOutcome`), so `sendMessage st input outcome` is the run of the
  original async function in which the single `fetch` resolves to `outcome`.
* JavaScript truthiness, `||`-chains, `undefined` versus `null`, string
  coercion of `+`, and `Array.prototype.join` are modelled by `Json`,
  `truthyOpt`, `jsOr`, `jsToString` and `joinArr`.
-/

/-- One message of the conversation: the source builds turns as
`(role: 'user' | 'assistant', content: string)` records. -/
structure Turn where
  role : String
  content : String
deriving DecidableEq, Repr

/-- A JSON value, as delivered by `await response.json()`.  A *missing*
object property (JavaScript `undefined`) is represented outside this type,
by `Option Json` with `none` for `undefined`. -/
inductive Json where
  | null : Json
  | bool (b : Bool) : Json
  | num (n : Int) : Json
  | str (s : String) : Json
  | arr (elems : List Json) : Json
  | obj (fields : List (String × Json)) : Json

/-- Property lookup `data.key` on a JSON value: `none` is JavaScript
`undefined` (missing property, or any lookup on a non-object). -/
def Json.get (key : String) : Json → Option Json
  | .obj fields =>
    match fields.find? (fun p => p.1 = key) with
    | some p => some p.2
    | none => none
  | _ => none

/-- JavaScript truthiness of a defined value. -/
def Json.truthy : Json → Bool
  | .null => false
  | .bool b => b
  | .num n => n != 0
  | .str s => s != ""
  | .arr _ => true
  | .obj _ => true

/-- JavaScript truthiness of a possibly-`undefined` value. -/
def truthyOpt : Option Json → Bool
  | none => false
  | some v => v.truthy

/-- JavaScript `a || b` on possibly-`undefined` values: the first operand if
it is truthy, otherwise the second. -/
def jsOr (a b : Option Json) : Option Json :=
  if truthyOpt a then a else b

mutual

/-- JavaScript `String(v)` for a defined value, as performed by
`answer += '...'` when `answer` is not a string.  `String(null)` is
`"null"`, arrays join their string-coerced elements with `','` (with
`null` elements becoming empty), plain objects print as
`"[object Object]"`. -/
def jsStringOfJson : Json → String
  | .null => "null"
  | .bool true => "true"
  | .bool false => "false"
  | .num n => toString n
  | .str s => s
  | .arr elems => String.intercalate "," (jsStringsOfElems elems)
  | .obj _ => "[object Object]"

/-- String coercion of the elements of an array, as `Array.prototype.join`
performs it: `null` elements become empty strings. -/
def jsStringsOfElems : List Json → List String
  | [] => []
  | .null :: rest => "" :: jsStringsOfElems rest
  | v :: rest => jsStringOfJson v :: jsStringsOfElems rest

end

/-- JavaScript `String(v)` for a possibly-`undefined` value:
`String(undefined)` is `"undefined"`. -/
def jsToString : Option Json → String
  | none => "undefined"
  | some v => jsStringOfJson v

/-- `Array.prototype.join(sep)` as used at `data.sources.join(', ')`:
elements are string-coerced, with `null` elements becoming empty
strings. -/
def joinArr (elems : List Json) (sep : String) : String :=
  String.intercalate sep (jsStringsOfElems elems)

/-- The value JavaScript reads for `v.length`, as at `data.sources.length`:
array and string lengths are numbers, a plain object's `length` is
whatever `length` property it carries (`none` = `undefined` when absent),
and numbers and booleans have no `length` property (`undefined`).  Reading
`.length` on `null`/`undefined` would throw, but the source only reads it
behind the truthiness guard `data.sources && ...`, so those cases are
unreachable; this model returns `undefined` for them. -/
def jsLengthVal : Option Json → Option Json
  | some (.arr elems) => some (.num elems.length)
  | some (.str s) => some (.num s.length)
  | some (.obj fields) => Json.get "length" (.obj fields)
  | _ => none

/-- The `appState` global of the source, together with `messages`, the
modelled contents of the rendered message container
(`elements.messagesContainer`), which `addMessage` appends to and which
`selectService` and `resetToWelcome` clear. -/
structure AppState where
  selectedService : Option String
  userEmail : String
  conversationHistory : List Turn
  isLoading : Bool
  initialized : Bool
  messages : List Turn
deriving DecidableEq, Repr

/-- The initial value of `appState` at the top of the source file
(`messages` empty: the container starts empty and `resetToWelcome` runs on
load). -/
def initialState : AppState :=
  { selectedService := none
    userEmail := ""
    conversationHistory := []
    isLoading := false
    initialized := false
    messages := [] }

/-- One entry of the `SERVICES` configuration object. -/
structure Service where
  name : String
  description : String
  icon : String
  welcomeMessage : String
deriving DecidableEq, Repr

/-- The `timesheet` entry of the `SERVICES` object (apostrophes written as
`\x27`). -/
def timesheetService : Service :=
  { name := "Timesheet Management"
    description := "your Oracle and Mars timesheets"
    icon := "⏰"
    welcomeMessage := "Hello! I\x27m your Timesheet Management assistant. I can help you fill timesheets, view entries, and manage your Oracle and Mars timesheet data. How can I assist you today?" }

/-- The `hr-policy` entry of the `SERVICES` object. -/
def hrPolicyService : Service :=
  { name := "HR Policy Assistant"
    description := "HR policies and company documents"
    icon := "📋"
    welcomeMessage := "Hello! I\x27m your HR Policy Assistant. I can help you understand company policies, HR procedures, and answer questions about employee documentation. How can I help you today?" }

/-- The `SERVICES` object: display metadata for the two assistants. -/
def SERVICES (id : String) : Option Service :=
  if id = "timesheet" then some timesheetService
  else if id = "hr-policy" then some hrPolicyService
  else none

/-- One entry of the `API_CONFIG` object. -/
structure ApiConfig where
  baseUrl : String
  endpoint : String
  method : String
deriving DecidableEq, Repr

/-- The `API_CONFIG` object: transport configuration per service. -/
def API_CONFIG (id : String) : Option ApiConfig :=
  if id = "timesheet" then
    some { baseUrl := "http://localhost:8000", endpoint := "/chat", method := "POST" }
  else if id = "hr-policy" then
    some { baseUrl := "http://localhost:8001", endpoint := "/query", method := "POST" }
  else none

/-- The whitespace class `\s` of the source's email regex, which is also
the class removed by `String.prototype.trim` (ASCII part plus no-break
space; the claims only exercise ASCII inputs). -/
def isJsWhitespace (c : Char) : Bool :=
  c = ' ' || c = '\t' || c = '\n' || c = '\r' || c = '\x0b' || c = '\x0c' || c = '\xa0'

/-- `String.prototype.trim()`: removes leading and trailing whitespace. -/
def trimChars (l : List Char) : List Char :=
  ((l.dropWhile isJsWhitespace).reverse.dropWhile isJsWhitespace).reverse

/-- `value.trim()` on a string, as used on the email and message inputs. -/
def jsTrim (s : String) : String :=
  ⟨trimChars s.data⟩

/-- Hexadecimal digit test for the `0x` numeric-string form. -/
def isHexDigit (c : Char) : Bool :=
  c.isDigit || ('a' ≤ c && c ≤ 'f') || ('A' ≤ c && c ≤ 'F')

/-- A radix-prefixed numeric string (after its `0x`/`0o`/`0b` prefix)
coerces to a number greater than zero exactly when it is a non-empty run
of digits of that radix with at least one digit other than `0`; anything
else is `NaN`, and `NaN > 0` is false. -/
def radixPositive (digitOk : Char → Bool) (l : List Char) : Bool :=
  !l.isEmpty && l.all digitOk && l.any (fun c => digitOk c && c ≠ '0')

/-- Splits a numeric string at its first `e`/`E`, separating the mantissa
from the optional exponent part. -/
def splitAtExp : List Char → List Char × Option (List Char)
  | [] => ([], none)
  | c :: rest =>
    if c = 'e' || c = 'E' then ([], some rest)
    else
      match splitAtExp rest with
      | (m, ex) => (c :: m, ex)

/-- A valid exponent part: an optional sign followed by at least one
decimal digit. -/
def exponentOk (l : List Char) : Bool :=
  match l with
  | '+' :: rest => !rest.isEmpty && rest.all Char.isDigit
  | '-' :: rest => !rest.isEmpty && rest.all Char.isDigit
  | rest => !rest.isEmpty && rest.all Char.isDigit

/-- An unsigned decimal numeric string (digits with at most one decimal
point and an optional exponent) coerces to a number greater than zero
exactly when it is well-formed and its mantissa has a digit other than
`0`; malformed strings are `NaN`.  (IEEE underflow of extreme exponents
such as `1e-400`, which JavaScript rounds to `0`, is not modelled.) -/
def decimalPositive (l : List Char) : Bool :=
  match splitAtExp l with
  | (m, ex) =>
    let mOk := m.all (fun c => c.isDigit || c = '.') && m.count '.' ≤ 1 &&
      m.any Char.isDigit
    let eOk := match ex with
      | none => true
      | some e => exponentOk e
    mOk && eOk && m.any (fun c => c.isDigit && c ≠ '0')

/-- Whether an unsigned numeric-string body (sign already stripped)
coerces to a number greater than zero: `Infinity`, radix-prefixed forms,
or a decimal form. -/
def magnitudePositive (l : List Char) : Bool :=
  if l = "Infinity".data then true
  else
    match l with
    | '0' :: 'x' :: rest => radixPositive isHexDigit rest
    | '0' :: 'X' :: rest => radixPositive isHexDigit rest
    | '0' :: 'o' :: rest => radixPositive (fun c => '0' ≤ c && c ≤ '7') rest
    | '0' :: 'O' :: rest => radixPositive (fun c => '0' ≤ c && c ≤ '7') rest
    | '0' :: 'b' :: rest => radixPositive (fun c => c = '0' || c = '1') rest
    | '0' :: 'B' :: rest => radixPositive (fun c => c = '0' || c = '1') rest
    | _ => decimalPositive l

/-- JavaScript `ToNumber(s) > 0` for a string `s`: the string is trimmed;
the empty string is `0`; a `-`-signed string is never greater than zero
(negative, `-0`, or `NaN`); otherwise the unsigned body decides. -/
def jsStringGtZero (s : String) : Bool :=
  match trimChars s.data with
  | [] => false
  | '-' :: _ => false
  | '+' :: rest => magnitudePositive rest
  | l => magnitudePositive l

/-- JavaScript `v > 0` for a possibly-`undefined` value, as evaluated at
`data.sources.length > 0`: numbers compare directly, `true` is `1` and
`false` is `0`, `null` is `0`, strings coerce through `ToNumber`, arrays
coerce through their `toString` (the comma-join) and then `ToNumber`,
plain objects coerce to `"[object Object]"` which is `NaN`, and
`undefined` is `NaN`; `NaN > 0` is false. -/
def jsGtZero : Option Json → Bool
  | none => false
  | some (.num n) => n > 0
  | some (.bool b) => b
  | some .null => false
  | some (.str s) => jsStringGtZero s
  | some (.arr elems) => jsStringGtZero (jsStringOfJson (.arr elems))
  | some (.obj _) => false

/-- Splitting a character list at every `'@'`, in the manner of
`String.prototype.split('@')`: `n` occurrences of `'@'` give `n + 1`
parts. -/
def splitOnAtSign : List Char → List (List Char)
  | [] => [[]]
  | c :: rest =>
    if c = '@' then [] :: splitOnAtSign rest
    else
      match splitOnAtSign rest with
      | [] => [[c]]
      | h :: r => (c :: h) :: r

/-- `validateEmail` of the source: trims the input and tests it against
`/^[^\s@]+@[^\s@]+\.[^\s@]+$/`.  A string matches that anchored regex
exactly when it splits as `A ++ "@" ++ R` where `A` is non-empty with no
whitespace or `@`, and `R` (no whitespace or `@`) contains a `.` that is
neither its first nor its last character (so `R = B ++ "." ++ C` with `B`,
`C` non-empty); splitting on `@` into exactly two parts enforces the single
`@`. -/
def validateEmail (input : String) : Bool :=
  let email := trimChars input.data
  match splitOnAtSign email with
  | [a, rest] =>
    !a.isEmpty && a.all (fun c => !isJsWhitespace c) &&
      rest.all (fun c => !isJsWhitespace c) &&
      ((rest.drop 1).dropLast.contains '.')
  | _ => false

/-- Errors surfaced by `selectService` through `showError`:
`invalidEmail` is the message `'Please enter a valid email address first.'`,
`invalidService` is `'Invalid service selected.'`. -/
inductive SelectError where
  | invalidEmail
  | invalidService
deriving DecidableEq, Repr

/-- `addMessage(role, content)` of the source, as its effect on the rendered
message list: it returns early when `content` is falsy (the empty string),
otherwise appends the turn. -/
def addMessage (role content : String) (msgs : List Turn) : List Turn :=
  if content = "" then msgs else msgs ++ [⟨role, content⟩]

/-- `selectService(serviceType)` of the source, with the email input passed
explicitly.  Faithful to the source's order of operations: it validates the
email first (returning with the email error and no state change on
failure), then *mutates* `appState` (`selectedService`, `userEmail`,
cleared `conversationHistory`, `initialized = true`), and only then looks
the service up in `SERVICES`; an unknown service reports
`invalidService` after the mutation has already happened.  On success it
clears the message container and adds the welcome message. -/
def selectService (serviceType emailInput : String) (st : AppState) :
    Option SelectError × AppState :=
  let email := jsTrim emailInput
  if !validateEmail emailInput || email = "" then
    (some .invalidEmail, st)
  else
    let st1 := { st with
      selectedService := some serviceType
      userEmail := email
      conversationHistory := []
      initialized := true }
    match SERVICES serviceType with
    | none => (some .invalidService, st1)
    | some service =>
      (none, { st1 with messages := addMessage "assistant" service.welcomeMessage [] })

/-- `resetToWelcome()` of the source, as its effect on the modelled state:
every field returns to its initial value and the message container is
cleared. -/
def resetToWelcome (_st : AppState) : AppState :=
  initialState

/-- A JavaScript `Error` value as thrown and caught by the source: a `name`
(`"Error"` for `new Error(...)`, `"TypeError"` for the failure `fetch`
rejects with) and a `message`. -/
structure JsError where
  name : String
  message : String
deriving DecidableEq, Repr

/-- The request body built by `callAPI`: `{email, user_prompt}` for the
timesheet service, `{question}` for the hr-policy service. -/
inductive Payload where
  | timesheetBody (email user_prompt : String)
  | hrPolicyBody (question : String)
deriving DecidableEq, Repr

/-- One HTTP request as issued by the single `fetch` call of `callAPI`. -/
structure RequestRecord where
  url : String
  method : String
  payload : Payload
deriving DecidableEq, Repr

/-- How the single `fetch` of `callAPI` resolves: either the promise
rejects with an error (network-level failure), or a response arrives with
a status code and a parsed JSON body. -/
inductive FetchOutcome where
  | networkFailure (name message : String)
  | httpResponse (status : Nat) (body : Json)

/-- `startsWithL pattern l`: `pattern` is a prefix of `l`. -/
def startsWithL : List Char → List Char → Bool
  | [], _ => true
  | _ :: _, [] => false
  | a :: as, b :: bs => a = b && startsWithL as bs

/-- `includesL pattern l`: `pattern` occurs contiguously in `l`. -/
def includesL (pattern : List Char) : List Char → Bool
  | [] => pattern.isEmpty
  | c :: rest => startsWithL pattern (c :: rest) || includesL pattern rest

/-- `String.prototype.includes`, as used by the error classification in
`sendMessage` (`error.message.includes('CORS')` and so on). -/
def strIncludes (s pat : String) : Bool :=
  includesL pat.data s.data

/-- The timesheet branch of `callAPI`'s response handling:
`data.response || data.message || 'Response received successfully.'`. -/
def timesheetAnswer (data : Json) : String :=
  let r := jsOr (data.get "response") (data.get "message")
  if truthyOpt r then jsToString r else "Response received successfully."

/-- The hr-policy branch of `callAPI`'s response handling:
`let answer = data.answer || data.response || data.message;` then, when
`data.sources && data.sources.length > 0`, JavaScript's
`answer += '\n\nSources: ' + data.sources.join(', ')` string-coerces
`answer` (so a missing answer becomes the text `"undefined"`); finally
`return answer || 'Response received successfully.'`.  When `sources` is a
truthy non-array whose `.length` reads greater than zero (for example a
plain object carrying a positive `length` property), `.join` is not a
function and the branch throws a `TypeError`. -/
def hrPolicyAnswer (data : Json) : Except JsError String :=
  let answer0 := jsOr (data.get "answer") (jsOr (data.get "response") (data.get "message"))
  let src := data.get "sources"
  if truthyOpt src && jsGtZero (jsLengthVal src) then
    match src with
    | some (Json.arr elems) =>
      let answer1 := jsToString answer0 ++ "\n\nSources: " ++ joinArr elems ", "
      Except.ok (if answer1 = "" then "Response received successfully." else answer1)
    | _ => Except.error ⟨"TypeError", "data.sources.join is not a function"⟩
  else
    Except.ok (if truthyOpt answer0 then jsToString answer0 else "Response received successfully.")

/-- `callAPI(message)` of the source, reading `appState.selectedService`
and `appState.userEmail` as arguments and taking the resolution of its one
`fetch` as the `outcome` parameter.  Returns the value the `async`
function resolves with (`Except.ok`) or the error it rejects with
(`Except.error`), together with the list of HTTP requests it issued
(empty when it throws before reaching `fetch`).  Faithful to the source:
a missing `API_CONFIG` entry throws `'Invalid service configuration'`
before any request; non-2xx statuses throw the messages built at lines
356-365; a rejected `fetch` with a `TypeError 'Failed to fetch'` is
rewrapped as `'Cannot connect to API server. ...'` and any other
rejection is rethrown unchanged. -/
def callAPI (selectedService : Option String) (userEmail message : String)
    (outcome : FetchOutcome) : Except JsError String × List RequestRecord :=
  let serviceConfig :=
    match selectedService with
    | some id => API_CONFIG id
    | none => none
  match serviceConfig with
  | none => (Except.error ⟨"Error", "Invalid service configuration"⟩, [])
  | some cfg =>
    let payload : Except JsError Payload :=
      if selectedService = some "timesheet" then
        Except.ok (.timesheetBody userEmail message)
      else if selectedService = some "hr-policy" then
        Except.ok (.hrPolicyBody message)
      else
        Except.error ⟨"Error", "Unknown service type"⟩
    match payload with
    | .error e => (.error e, [])
    | .ok p =>
      let req : RequestRecord := ⟨cfg.baseUrl ++ cfg.endpoint, cfg.method, p⟩
      match outcome with
      | .networkFailure errName errMsg =>
        if errName = "TypeError" && errMsg = "Failed to fetch" then
          (.error ⟨"Error", "Cannot connect to API server. Please ensure it is running and accessible."⟩, [req])
        else
          (.error ⟨errName, errMsg⟩, [req])
      | .httpResponse status body =>
        if !(200 ≤ status && status < 300) then
          if status = 405 then
            (.error ⟨"Error", "Method not allowed (405). Check if " ++ cfg.endpoint ++ " accepts " ++ cfg.method ++ " requests."⟩, [req])
          else if status = 404 then
            (.error ⟨"Error", "Endpoint not found (404). Check if " ++ cfg.endpoint ++ " exists."⟩, [req])
          else if status ≥ 500 then
            (.error ⟨"Error", "Server error (" ++ toString status ++ "). The API server may be down."⟩, [req])
          else
            (.error ⟨"Error", "HTTP error! status: " ++ toString status⟩, [req])
        else
          if selectedService = some "timesheet" then
            (.ok (timesheetAnswer body), [req])
          else if selectedService = some "hr-policy" then
            (hrPolicyAnswer body, [req])
          else
            (.ok "Response received successfully.", [req])

/-- The four branches of `sendMessage`'s `catch` block, named after the
error taxonomy of the specification: the CORS/OPTIONS branch, the `'405'`
branch (method-not-allowed), the `'Failed to fetch'` branch
(network-unreachable), and the default branch (unknown). -/
inductive ErrorCategory where
  | corsIssue
  | methodNotAllowed
  | networkUnreachable
  | unknown
deriving DecidableEq, Repr

/-- The error classification performed in `sendMessage`'s `catch` block:
substring tests on `error.message`, in source order, each selecting the
fixed user-facing message shown through `showError`. -/
def classifyError (e : JsError) : ErrorCategory × String :=
  if strIncludes e.message "CORS" || strIncludes e.message "OPTIONS" then
    (.corsIssue, "Connection issue - please ensure the API server is running and CORS is configured.")
  else if strIncludes e.message "405" then
    (.methodNotAllowed, "Method not allowed - please check the API endpoint configuration.")
  else if strIncludes e.message "Failed to fetch" then
    (.networkUnreachable, "Cannot connect to API server. Please ensure it is running.")
  else
    (.unknown, "Sorry, I encountered an error. Please try again.")

/-- The fixed assistant message `addMessage('assistant', ...)` appends in
`sendMessage`'s `catch` block. -/
def apologyText : String :=
  "I apologize, but I encountered an error processing your request. Please try again."

/-- The observable result of one `sendMessage` call:
`preconditionFailed` models the silent early return of the guard
`if (!message || appState.isLoading || !appState.initialized) return;`,
`success` carries the resolved reply, `failure` carries the classified
category and the message shown through `showError`. -/
inductive SendResult where
  | preconditionFailed
  | success (reply : String)
  | failure (category : ErrorCategory) (shownMessage : String)
deriving DecidableEq, Repr

/-- Everything one `sendMessage` call produces: its result, the state
after it returns, and the HTTP requests it issued. -/
structure SendOutcome where
  result : SendResult
  state : AppState
  requests : List RequestRecord
deriving DecidableEq, Repr

/-- `sendMessage()` of the source, with the message input passed
explicitly and the transport resolution as the `outcome` parameter.
Faithful to the source's order: guard check; `addMessage('user', message)`
to the rendered list; `showTyping(true)` sets `isLoading`; `callAPI`; on
resolution, `addMessage('assistant', response)` and a push of the
user/assistant pair onto `conversationHistory`; on rejection, the error
classification, `showError`, and `addMessage('assistant', apologyText)`
with no `conversationHistory` change; `finally`, `showTyping(false)`
clears `isLoading`. -/
def sendMessage (st : AppState) (input : String) (outcome : FetchOutcome) :
    SendOutcome :=
  let message := jsTrim input
  if message = "" || st.isLoading || !st.initialized then
    ⟨.preconditionFailed, st, []⟩
  else
    let st1 := { st with messages := addMessage "user" message st.messages }
    let st2 := { st1 with isLoading := true }
    match callAPI st2.selectedService st2.userEmail message outcome with
    | (Except.ok response, reqs) =>
      let st3 := { st2 with
        messages := addMessage "assistant" response st2.messages
        conversationHistory := st2.conversationHistory ++
          [Turn.mk "user" message, Turn.mk "assistant" response] }
      ⟨.success response, { st3 with isLoading := false }, reqs⟩
    | (Except.error e, reqs) =>
      let classified := classifyError e
      let st3 := { st2 with messages := addMessage "assistant" apologyText st2.messages }
      ⟨.failure classified.1 classified.2, { st3 with isLoading := false }, reqs⟩

/-- The conversation history invariant of the controller: even length,
consisting of consecutive (user Turn, assistant Turn) pairs. -/
def historyPaired : List Turn → Bool
  | [] => true
  | [_] => false
  | t1 :: t2 :: rest => t1.role = "user" && t2.role = "assistant" && historyPaired rest

/-- The states reachable from the initial `appState` by any sequence of
`selectService`, `sendMessage` (under any transport resolution) and
`resetToWelcome` calls. -/
inductive Reachable : AppState → Prop where
  | init : Reachable initialState
  | select (id email : String) (st : AppState) :
      Reachable st → Reachable (selectService id email st).2
  | send (input : String) (outcome : FetchOutcome) (st : AppState) :
      Reachable st → Reachable (sendMessage st input outcome).state
  | reset (st : AppState) : Reachable st → Reachable (resetToWelcome st)

/-- A representative `Active` timesheet session (the state after a valid
`selectService('timesheet')`, with the welcome message rendered). -/
def tsActiveState : AppState :=
  { selectedService := some "timesheet"
    userEmail := "user@example.com"
    conversationHistory := []
    isLoading := false
    initialized := true
    messages := [] }

/-- A representative `Active` hr-policy session. -/
def hrActiveState : AppState :=
  { tsActiveState with selectedService := some "hr-policy" }

/-- An `Active` timesheet session that already carries conversation
history and rendered messages, used to exhibit state mutation. -/
def priorActiveState : AppState :=
  { tsActiveState with
    conversationHistory := [Turn.mk "user" "hello", Turn.mk "assistant" "world"]
    messages := [Turn.mk "user" "hello", Turn.mk "assistant" "world"] }

/-! ## Helper lemmas -/

/-- A valid email is non-empty after trimming: the regex requires at least
one character before the `@`. -/
theorem validateEmail_trim_ne (email : String) (h : validateEmail email = true) :
    jsTrim email ≠ "" := by
  intro hcontra
  have hd : trimChars email.data = [] := congrArg String.data hcontra
  unfold validateEmail at h
  rw [hd] at h
  simp [splitOnAtSign] at h

/-- Every service in the registry has a non-empty welcome message, so
`addMessage` does append it. -/
theorem welcomeMessage_ne_empty (id : String) (svc : Service)
    (hsvc : SERVICES id = some svc) : svc.welcomeMessage ≠ "" := by
  unfold SERVICES at hsvc
  split at hsvc
  · simp only [Option.some.injEq] at hsvc
    subst hsvc
    decide
  · split at hsvc
    · simp only [Option.some.injEq] at hsvc
      subst hsvc
      decide
    · exact absurd hsvc (by simp)

/-! ## Claims -/

/-- C9: for every email string that fails the syntactic email-shape check
(the source's regex on the trimmed input), `selectService` fails with the
invalid-email error and every field of the session state is unchanged from
before the call. -/
theorem selectService_invalid_email (id input : String) (st : AppState)
    (h : validateEmail input = false) :
    selectService id input st = (some .invalidEmail, st) := by
  simp [selectService, h]

/-- Witness for C9 at the three emails named by the claim. -/
theorem selectService_invalid_email_witness :
    selectService "timesheet" "not-an-email" priorActiveState
        = (some .invalidEmail, priorActiveState) ∧
      selectService "timesheet" "" priorActiveState
        = (some .invalidEmail, priorActiveState) ∧
      selectService "timesheet" "a@b" priorActiveState
        = (some .invalidEmail, priorActiveState) :=
  ⟨selectService_invalid_email "timesheet" "not-an-email" priorActiveState (by decide),
   selectService_invalid_email "timesheet" "" priorActiveState (by decide),
   selectService_invalid_email "timesheet" "a@b" priorActiveState (by decide)⟩

/-- C6: whenever a request is outstanding (`isLoading = true`, the
source's `pending` flag), `sendMessage` is rejected by its guard — it
returns without any effect (precondition failure), leaves the state
untouched, and issues no transport request, whatever the transport would
have answered. -/
theorem sendMessage_pending_guard (st : AppState) (input : String)
    (outcome : FetchOutcome) (h : st.isLoading = true) :
    sendMessage st input outcome = ⟨.preconditionFailed, st, []⟩ := by
  simp [sendMessage, h]

/-- Witness for C6: a pending timesheet session rejects a second send. -/
theorem sendMessage_pending_guard_witness :
    sendMessage { tsActiveState with isLoading := true } "hi"
        (.httpResponse 200 (Json.obj [("response", Json.str "ok")]))
      = ⟨.preconditionFailed, { tsActiveState with isLoading := true }, []⟩ :=
  sendMessage_pending_guard { tsActiveState with isLoading := true } "hi"
    (.httpResponse 200 (Json.obj [("response", Json.str "ok")])) rfl

/-- C2 (code bug): `selectService` with an id absent from the registry
does report the invalid-service error, but only after it has already
mutated the session state: starting from an `Active` timesheet session
with history, `selectService("payroll")` sets `selectedService` to the
unknown id, overwrites `userEmail`, clears `conversationHistory` and sets
`initialized`, contradicting the claim that every field is left exactly as
it was. -/
theorem selectService_unknown_id_mutates :
    (selectService "payroll" "other@example.com" priorActiveState).1
        = some .invalidService ∧
      (selectService "payroll" "other@example.com" priorActiveState).2.selectedService
        = some "payroll" ∧
      (selectService "payroll" "other@example.com" priorActiveState).2.conversationHistory
        = [] ∧
      (selectService "payroll" "other@example.com" priorActiveState).2.userEmail
        = "other@example.com" ∧
      (selectService "payroll" "other@example.com" priorActiveState).2
        ≠ priorActiveState := by
  decide
set_option maxRecDepth 8192

/-- C1: for every service id present in the registry and every email
accepted by the email shape check, `selectService` succeeds, activates the
service, clears the conversation history, and leaves the rendered message
list holding exactly one assistant Turn whose content is the selected
service's welcome text. -/
theorem selectService_valid_welcome (id email : String) (svc : Service)
    (st : AppState) (hsvc : SERVICES id = some svc)
    (hemail : validateEmail email = true) :
    ∃ st', selectService id email st = (none, st') ∧
      st'.selectedService = some id ∧
      st'.conversationHistory = [] ∧
      st'.messages = [Turn.mk "assistant" svc.welcomeMessage] ∧
      st'.initialized = true := by
  have hne := validateEmail_trim_ne email hemail
  have hwel := welcomeMessage_ne_empty id svc hsvc
  have key : selectService id email st = (none, { st with selectedService := some id, userEmail := jsTrim email, conversationHistory := [], initialized := true, messages := [Turn.mk "assistant" svc.welcomeMessage] }) := by
    simp [selectService, hemail, hne, hsvc, addMessage, hwel]
  exact ⟨_, key, rfl, rfl, rfl, rfl⟩

/-- Witness for C1: selecting the timesheet service with a valid email. -/
theorem selectService_valid_welcome_witness :
    ∃ st', selectService "timesheet" "user@example.com" initialState = (none, st') ∧
      st'.selectedService = some "timesheet" ∧
      st'.conversationHistory = [] ∧
      st'.messages = [Turn.mk "assistant" timesheetService.welcomeMessage] ∧
      st'.initialized = true :=
  selectService_valid_welcome "timesheet" "user@example.com" timesheetService
    initialState (by decide) (by decide)
/-- C7: in an `Active` timesheet session, given the successful transport
response with body `response: "ok"`, `sendMessage("hi")` resolves with the
assistant reply `"ok"` and appends a user Turn `"hi"` followed by an
assistant Turn `"ok"`, in that order, to the conversation history and to
the rendered message list. -/
theorem timesheet_roundtrip (st : AppState)
    (hsvc : st.selectedService = some "timesheet")
    (hinit : st.initialized = true) (hload : st.isLoading = false) :
    (sendMessage st "hi" (.httpResponse 200 (Json.obj [("response", Json.str "ok")]))).result
        = .success "ok" ∧
      (sendMessage st "hi" (.httpResponse 200 (Json.obj [("response", Json.str "ok")]))).state.conversationHistory
        = st.conversationHistory ++ [Turn.mk "user" "hi", Turn.mk "assistant" "ok"] ∧
      (sendMessage st "hi" (.httpResponse 200 (Json.obj [("response", Json.str "ok")]))).state.messages
        = st.messages ++ [Turn.mk "user" "hi", Turn.mk "assistant" "ok"] := by
  have hcall : ∀ email : String,
      callAPI (some "timesheet") email "hi"
          (.httpResponse 200 (Json.obj [("response", Json.str "ok")]))
        = (Except.ok "ok",
           [⟨"http://localhost:8000" ++ "/chat", "POST", .timesheetBody email "hi"⟩]) :=
    fun _ => rfl
  have htrim : jsTrim "hi" = "hi" := rfl
  refine ⟨?_, ?_, ?_⟩ <;>
    simp [sendMessage, hload, hinit, hsvc, hcall, htrim, addMessage]

/-- Witness for C7 at a concrete `Active` timesheet session. -/
theorem timesheet_roundtrip_witness :
    (sendMessage tsActiveState "hi" (.httpResponse 200 (Json.obj [("response", Json.str "ok")]))).result
        = .success "ok" ∧
      (sendMessage tsActiveState "hi" (.httpResponse 200 (Json.obj [("response", Json.str "ok")]))).state.conversationHistory
        = tsActiveState.conversationHistory ++ [Turn.mk "user" "hi", Turn.mk "assistant" "ok"] ∧
      (sendMessage tsActiveState "hi" (.httpResponse 200 (Json.obj [("response", Json.str "ok")]))).state.messages
        = tsActiveState.messages ++ [Turn.mk "user" "hi", Turn.mk "assistant" "ok"] :=
  timesheet_roundtrip tsActiveState rfl rfl rfl
/-- C8: in an `Active` hr-policy session, given the successful transport
response with `answer: "A"` and `sources: ["doc1", "doc2"]`, the assistant
Turn produced by `sendMessage` has content equal to the answer, the
two-newline separator, and `"Sources: "` with the sources joined by
`", "`. -/
theorem hrPolicy_sources_formatting (st : AppState) (input : String)
    (hsvc : st.selectedService = some "hr-policy")
    (hinit : st.initialized = true) (hload : st.isLoading = false)
    (hmsg : jsTrim input ≠ "") :
    (sendMessage st input (.httpResponse 200 (Json.obj [("answer", Json.str "A"), ("sources", Json.arr [Json.str "doc1", Json.str "doc2"])]))).result
        = .success "A\n\nSources: doc1, doc2" ∧
      (sendMessage st input (.httpResponse 200 (Json.obj [("answer", Json.str "A"), ("sources", Json.arr [Json.str "doc1", Json.str "doc2"])]))).state.conversationHistory
        = st.conversationHistory ++
            [Turn.mk "user" (jsTrim input), Turn.mk "assistant" "A\n\nSources: doc1, doc2"] := by
  have hcall : ∀ email msg : String,
      callAPI (some "hr-policy") email msg
          (.httpResponse 200 (Json.obj [("answer", Json.str "A"), ("sources", Json.arr [Json.str "doc1", Json.str "doc2"])]))
        = (Except.ok "A\n\nSources: doc1, doc2",
           [⟨"http://localhost:8001" ++ "/query", "POST", .hrPolicyBody msg⟩]) :=
    fun _ _ => rfl
  refine ⟨?_, ?_⟩ <;>
    simp [sendMessage, hload, hinit, hsvc, hcall, hmsg, addMessage]

/-- Witness for C8 at a concrete `Active` hr-policy session. -/
theorem hrPolicy_sources_formatting_witness :
    (sendMessage hrActiveState "hi" (.httpResponse 200 (Json.obj [("answer", Json.str "A"), ("sources", Json.arr [Json.str "doc1", Json.str "doc2"])]))).result
        = .success "A\n\nSources: doc1, doc2" ∧
      (sendMessage hrActiveState "hi" (.httpResponse 200 (Json.obj [("answer", Json.str "A"), ("sources", Json.arr [Json.str "doc1", Json.str "doc2"])]))).state.conversationHistory
        = hrActiveState.conversationHistory ++
            [Turn.mk "user" (jsTrim "hi"), Turn.mk "assistant" "A\n\nSources: doc1, doc2"] :=
  hrPolicy_sources_formatting hrActiveState "hi" rfl rfl rfl (by decide)
/-- C3 counterexample: in an `Active` timesheet session, a 405 transport
response makes `sendMessage("hi")` classify the failure as
method-not-allowed, but the conversation history afterwards does *not*
contain the user Turn (the source only records history on success), while
the rendered message list *does* gain a new assistant Turn (the fixed
apology) — so "history contains the user Turn but no new assistant Turn"
is false under either reading of "history". -/
theorem sendMessage_405_claim_false :
    (sendMessage tsActiveState "hi" (.httpResponse 405 Json.null)).result
        = .failure .methodNotAllowed "Method not allowed - please check the API endpoint configuration." ∧
      (sendMessage tsActiveState "hi" (.httpResponse 405 Json.null)).state.conversationHistory
        = [] ∧
      (sendMessage tsActiveState "hi" (.httpResponse 405 Json.null)).state.messages
        = [Turn.mk "user" "hi", Turn.mk "assistant" apologyText] := by
  decide

/-- C3 amended: in an `Active` session of either service with no request
outstanding and non-empty text, a 405 transport response makes
`sendMessage` return the method-not-allowed classification,
`pending` (`isLoading`) is false afterwards, the conversation history is
unchanged (the user Turn is not recorded there), and the rendered message
list gains the user Turn followed by the fixed apology assistant Turn. -/
theorem sendMessage_405_behavior (st : AppState) (input : String) (body : Json)
    (hsvc : st.selectedService = some "timesheet" ∨ st.selectedService = some "hr-policy")
    (hinit : st.initialized = true) (hload : st.isLoading = false)
    (hmsg : jsTrim input ≠ "") :
    (sendMessage st input (.httpResponse 405 body)).result
        = .failure .methodNotAllowed "Method not allowed - please check the API endpoint configuration." ∧
      (sendMessage st input (.httpResponse 405 body)).state.isLoading = false ∧
      (sendMessage st input (.httpResponse 405 body)).state.conversationHistory
        = st.conversationHistory ∧
      (sendMessage st input (.httpResponse 405 body)).state.messages
        = st.messages ++ [Turn.mk "user" (jsTrim input), Turn.mk "assistant" apologyText] := by
  have hts : ∀ email msg : String, callAPI (some "timesheet") email msg (.httpResponse 405 body)
      = (Except.error ⟨"Error", "Method not allowed (405). Check if " ++ "/chat" ++ " accepts " ++ "POST" ++ " requests."⟩,
         [⟨"http://localhost:8000" ++ "/chat", "POST", .timesheetBody email msg⟩]) :=
    fun _ _ => rfl
  have hhr : ∀ email msg : String, callAPI (some "hr-policy") email msg (.httpResponse 405 body)
      = (Except.error ⟨"Error", "Method not allowed (405). Check if " ++ "/query" ++ " accepts " ++ "POST" ++ " requests."⟩,
         [⟨"http://localhost:8001" ++ "/query", "POST", .hrPolicyBody msg⟩]) :=
    fun _ _ => rfl
  have hclsTs : classifyError ⟨"Error", "Method not allowed (405). Check if /chat accepts POST requests."⟩
      = (.methodNotAllowed, "Method not allowed - please check the API endpoint configuration.") := by
    decide
  have hclsHr : classifyError ⟨"Error", "Method not allowed (405). Check if /query accepts POST requests."⟩
      = (.methodNotAllowed, "Method not allowed - please check the API endpoint configuration.") := by
    decide
  rcases hsvc with h | h <;>
    (refine ⟨?_, ?_, ?_, ?_⟩ <;>
      simp [sendMessage, hload, hinit, h, hts, hhr, hclsTs, hclsHr, hmsg, addMessage, apologyText])

/-- Witness for the amended C3 at a concrete hr-policy session. -/
theorem sendMessage_405_behavior_witness :
    (sendMessage hrActiveState "hello" (.httpResponse 405 Json.null)).result
        = .failure .methodNotAllowed "Method not allowed - please check the API endpoint configuration." ∧
      (sendMessage hrActiveState "hello" (.httpResponse 405 Json.null)).state.isLoading = false ∧
      (sendMessage hrActiveState "hello" (.httpResponse 405 Json.null)).state.conversationHistory
        = hrActiveState.conversationHistory ∧
      (sendMessage hrActiveState "hello" (.httpResponse 405 Json.null)).state.messages
        = hrActiveState.messages ++ [Turn.mk "user" (jsTrim "hello"), Turn.mk "assistant" apologyText] :=
  sendMessage_405_behavior hrActiveState "hello" Json.null (Or.inr rfl) rfl rfl (by decide)
/-- C4 counterexample: for the hr-policy service, the successful response
whose body has a non-empty `sources` list but no `answer`, `response` or
`message` field does *not* produce the fallback text: JavaScript's
`answer += ...` string-coerces the missing answer, so the assistant Turn
content is `"undefined\n\nSources: doc1, doc2"`. -/
theorem fallback_claim_false :
    (sendMessage hrActiveState "hi" (.httpResponse 200 (Json.obj [("sources", Json.arr [Json.str "doc1", Json.str "doc2"])]))).result
        = .success "undefined\n\nSources: doc1, doc2" ∧
      "undefined\n\nSources: doc1, doc2" ≠ "Response received successfully." := by
  decide

/-- C4 amended: for every successful transport response whose parser
yields no usable text, the assistant Turn content is the fixed fallback
string — *except* that for hr-policy this additionally requires the
body's `sources` not to pass the length guard
`data.sources && data.sources.length > 0`: a non-empty `sources` array
passing it produces the string-coerced missing answer followed by the
sources (as the counterexample shows), and a truthy non-array passing it
(such as an object with a positive `length` property) makes `.join` throw,
sending the call down the classified-error path instead of success.  Part
one: timesheet, where the `||`-chain ends in the fallback literal; part
two: hr-policy with the length guard false. -/
theorem fallback_on_no_usable_text :
    (∀ (st : AppState) (input : String) (body : Json),
       st.selectedService = some "timesheet" → st.initialized = true →
       st.isLoading = false → jsTrim input ≠ "" →
       truthyOpt (jsOr (body.get "response") (body.get "message")) = false →
       (sendMessage st input (.httpResponse 200 body)).result
           = .success "Response received successfully." ∧
         (sendMessage st input (.httpResponse 200 body)).state.conversationHistory
           = st.conversationHistory ++
               [Turn.mk "user" (jsTrim input), Turn.mk "assistant" "Response received successfully."])
    ∧
    (∀ (st : AppState) (input : String) (body : Json),
       st.selectedService = some "hr-policy" → st.initialized = true →
       st.isLoading = false → jsTrim input ≠ "" →
       truthyOpt (jsOr (body.get "answer") (jsOr (body.get "response") (body.get "message"))) = false →
       (truthyOpt (body.get "sources") = false ∨ jsGtZero (jsLengthVal (body.get "sources")) = false) →
       (sendMessage st input (.httpResponse 200 body)).result
           = .success "Response received successfully." ∧
         (sendMessage st input (.httpResponse 200 body)).state.conversationHistory
           = st.conversationHistory ++
               [Turn.mk "user" (jsTrim input), Turn.mk "assistant" "Response received successfully."]) := by
  constructor
  · intro st input body hsvc hinit hload hmsg hres
    have hcall : ∀ email msg : String, callAPI (some "timesheet") email msg (.httpResponse 200 body)
        = (Except.ok (timesheetAnswer body),
           [⟨"http://localhost:8000" ++ "/chat", "POST", .timesheetBody email msg⟩]) :=
      fun _ _ => rfl
    have hans : timesheetAnswer body = "Response received successfully." := by
      simp [timesheetAnswer, hres]
    refine ⟨?_, ?_⟩ <;>
      simp [sendMessage, hload, hinit, hsvc, hcall, hans, hmsg, addMessage]
  · intro st input body hsvc hinit hload hmsg hans0 hsrc
    have hcall : ∀ email msg : String, callAPI (some "hr-policy") email msg (.httpResponse 200 body)
        = (hrPolicyAnswer body,
           [⟨"http://localhost:8001" ++ "/query", "POST", .hrPolicyBody msg⟩]) :=
      fun _ _ => rfl
    have hans : hrPolicyAnswer body = Except.ok "Response received successfully." := by
      rcases hsrc with h | h <;> simp [hrPolicyAnswer, h, hans0]
    refine ⟨?_, ?_⟩ <;>
      simp [sendMessage, hload, hinit, hsvc, hcall, hans, hmsg, addMessage]

/-- Witness for the amended C4: a timesheet body with only an unused
field, and an hr-policy body whose `answer` is the empty string and which
has no sources. -/
theorem fallback_on_no_usable_text_witness :
    ((sendMessage tsActiveState "hi" (.httpResponse 200 (Json.obj [("status", Json.str "done")]))).result
        = .success "Response received successfully." ∧
      (sendMessage tsActiveState "hi" (.httpResponse 200 (Json.obj [("status", Json.str "done")]))).state.conversationHistory
        = tsActiveState.conversationHistory ++
            [Turn.mk "user" (jsTrim "hi"), Turn.mk "assistant" "Response received successfully."])
    ∧
    ((sendMessage hrActiveState "hi" (.httpResponse 200 (Json.obj [("answer", Json.str "")]))).result
        = .success "Response received successfully." ∧
      (sendMessage hrActiveState "hi" (.httpResponse 200 (Json.obj [("answer", Json.str "")]))).state.conversationHistory
        = hrActiveState.conversationHistory ++
            [Turn.mk "user" (jsTrim "hi"), Turn.mk "assistant" "Response received successfully."]) :=
  ⟨fallback_on_no_usable_text.1 tsActiveState "hi" (Json.obj [("status", Json.str "done")])
      rfl rfl rfl (by decide) (by decide),
   fallback_on_no_usable_text.2 hrActiveState "hi" (Json.obj [("answer", Json.str "")])
      rfl rfl rfl (by decide) (by decide) (Or.inl (by decide))⟩
/-- C5 counterexample: a failure signal that matches none of the known
cases — HTTP status 400, whose raw description is
`"HTTP error! status: 400"` — lands in the default branch, but the message
shown is the fixed generic `"Sorry, I encountered an error. Please try
again."`, not the preserved raw description. -/
theorem classify_unknown_claim_false :
    (sendMessage tsActiveState "hi" (.httpResponse 400 Json.null)).result
        = .failure .unknown "Sorry, I encountered an error. Please try again." ∧
      "Sorry, I encountered an error. Please try again."
        ≠ "HTTP error! status: 400" := by
  decide

/-- C5 amended: every failure signal whose description matches none of the
classifier's cases (no `'CORS'`, `'OPTIONS'`, `'405'` or
`'Failed to fetch'` substring) is classified in the default (unknown)
category with the fixed generic message — the raw description is
discarded, not preserved. -/
theorem classify_unknown_generic (e : JsError)
    (hcors : strIncludes e.message "CORS" = false)
    (hopts : strIncludes e.message "OPTIONS" = false)
    (h405 : strIncludes e.message "405" = false)
    (hfetch : strIncludes e.message "Failed to fetch" = false) :
    classifyError e
      = (.unknown, "Sorry, I encountered an error. Please try again.") := by
  simp [classifyError, hcors, hopts, h405, hfetch]

/-- Witness for the amended C5 at the raw description of an HTTP 400
failure. -/
theorem classify_unknown_generic_witness :
    classifyError ⟨"Error", "HTTP error! status: 400"⟩
      = (.unknown, "Sorry, I encountered an error. Please try again.") :=
  classify_unknown_generic ⟨"Error", "HTTP error! status: 400"⟩
    (by decide) (by decide) (by decide) (by decide)
/-- Appending one (user, assistant) pair preserves the pairing
invariant. -/
theorem historyPaired_append_pair (u a : String) :
    ∀ l : List Turn, historyPaired l = true →
      historyPaired (l ++ [Turn.mk "user" u, Turn.mk "assistant" a]) = true
  | [], _ => by simp [historyPaired]
  | [_], h => by simp [historyPaired] at h
  | t1 :: t2 :: rest, h => by
    simp only [historyPaired, Bool.and_eq_true, decide_eq_true_eq] at h
    simp only [List.cons_append, historyPaired, Bool.and_eq_true, decide_eq_true_eq]
    exact ⟨h.1, historyPaired_append_pair u a rest h.2⟩

/-- C10: in every state reachable by any sequence of `selectService`,
`sendMessage` and `resetToWelcome` calls, the conversation history has
even length and consists of consecutive (user Turn, assistant Turn)
pairs: a successful `sendMessage` appends the two Turns together after the
transport call resolves, a failed one appends nothing to the conversation
history, and `selectService` and `resetToWelcome` clear it. -/
theorem reachable_history_paired (st : AppState) (h : Reachable st) :
    historyPaired st.conversationHistory = true := by
  induction h with
  | init => decide
  | select id email st' _ ih =>
    show historyPaired (selectService id email st').2.conversationHistory = true
    rw [selectService]
    split
    · simpa using ih
    · split
      · simp [historyPaired]
      · simp [historyPaired, addMessage]
  | send input outcome st' _ ih =>
    show historyPaired (sendMessage st' input outcome).state.conversationHistory = true
    rw [sendMessage]
    split
    · simpa using ih
    · dsimp only
      split
      · simpa using historyPaired_append_pair _ _ _ ih
      · simpa using ih
  | reset st' _ _ =>
    show historyPaired (resetToWelcome st').conversationHistory = true
    simp [resetToWelcome, initialState, historyPaired]

/-- Witness for C10 at the initial state. -/
theorem reachable_history_paired_witness :
    historyPaired initialState.conversationHistory = true :=
  reachable_history_paired initialState Reachable.init
